import Mathlib

/-!
# PCI-Dashboard: verification of the filtering/aggregation pipeline

Shallow embedding of the client-side data pipeline of the PCI complaints
dashboard:

* the record normalizer `transformComplaint` (`lib/data-loader.ts`),
* the multi-dimensional filter `filterComplaints` (`app/page.tsx`, `filteredData`),
* the grouping/aggregation operations (`decisionCounts`, `decisionByCategory`,
  `upheldRateByCategory`, `decisionByOccupation`, `upheldRateByOccupation`,
  `stateData`),
* the display-label resolver `getTargetDisplayName` (`components/targets-analysis.tsx`),
* the summary `statistics` (`app/page.tsx`).

Modelling conventions:

* JavaScript strings are `String`; an absent/`undefined`/`null` field and the
  empty string are all falsy under `||`, so absent raw fields are modelled as
  `""` (observationally equivalent through the normalizer).
* JavaScript numbers appearing here are small non-negative integers, modelled
  as `Nat`.  The one floating-point expression, `((x / y) * 100).toFixed(1)`,
  is modelled by exact rational rounding to one decimal digit
  (round-half-up), computed over `Nat`.
* `Map`/plain-object keyed accumulation (insertion-ordered in JS) is modelled
  by insertion-ordered association lists.
* `Array.prototype.sort` (stable since ES2019) is modelled by a stable
  insertion sort `stableSortBy`.
* `new Date().getFullYear()` and the `Math.random()` id suffix are ambient
  inputs of the normalizer; they are passed explicitly as parameters.
-/

/-- Direction tag of a canonical complaint (`"by_press" | "against_press"`). -/
inductive Direction where
  | by_press
  | against_press
  deriving DecidableEq, Repr

/-- Direction filter value (`"all" | "by_press" | "against_press"`). -/
inductive DirectionFilter where
  | all
  | by_press
  | against_press
  deriving DecidableEq, Repr

/-- The string comparison `item.complaintDirection !== selectedDirection`
compares a `Direction` with a `DirectionFilter`; this injection mirrors it. -/
def Direction.toFilter : Direction → DirectionFilter
  | .by_press => .by_press
  | .against_press => .against_press

/-- Values of the `gender` field of `PCIComplaint` (always `"unknown"` after normalization). -/
inductive Gender where
  | male
  | female
  | organization
  | unknown
  deriving DecidableEq, Repr

/-- The source table a raw record was fetched from (`"by" | "against"`). -/
inductive SourceTable where
  | byTable
  | againstTable
  deriving DecidableEq, Repr

/-- String form of the table tag, as interpolated into the synthetic id. -/
def SourceTable.toStr : SourceTable → String
  | .byTable => "by"
  | .againstTable => "against"

/-- Canonical complaint (`PCIComplaint` in `lib/types.ts`). -/
structure PCIComplaint where
  id : String
  complainant : String
  against : String
  complaint : String
  complaintType : String
  decision : String
  date : String
  year : Nat
  state : String
  reportName : String
  locationsMApped : String
  complainantNameResolved : String
  accusedNameResolved : String
  complainantAffiliation : String
  accusedAffiliation : String
  complaintDirection : Direction
  gender : Gender
  complaintTypeNormalized : String
  decisionParent : String
  decisionSpecific : String
  complainantCategory : String
  complainantOccupation : String
  accusedCategory : String
  accusedOccupation : String
  level : String
  deriving DecidableEq, Repr

/-- Raw backend record (`Complaint` in `lib/api.ts`, plus the normalized
columns consumed by `transformComplaint`).  Absent fields are `""`. -/
structure RawComplaint where
  Complainant : String := ""
  Against : String := ""
  Complaint : String := ""
  ComplaintType : String := ""
  Decision : String := ""
  Date : String := ""
  State : String := ""
  ReportName : String := ""
  Locations_Mapped : String := ""
  c_name_resolved : String := ""
  a_name_resolved : String := ""
  c_aff_resolved : String := ""
  a_aff_resolved : String := ""
  ComplaintType_Normalized : String := ""
  Decision_Parent : String := ""
  Decision_Specific : String := ""
  Complainant_Category : String := ""
  Complainant_Occupation : String := ""
  Accused_Category : String := ""
  Accused_Occupation : String := ""
  level : String := ""
  deriving DecidableEq, Repr

/-- JavaScript `a || b` on strings: `""` (and absent) is falsy. -/
def strOr (a b : String) : String :=
  if a = "" then b else a

/-- Four leading decimal digits of a character list, if present
(the match attempt of the regex `/(\d{4})/` at one position). -/
def fourDigitsAt : List Char → Option Nat
  | a :: b :: c :: d :: _ =>
    if a.isDigit && b.isDigit && c.isDigit && d.isDigit then
      some ((((a.toNat - '0'.toNat) * 10 + (b.toNat - '0'.toNat)) * 10 +
              (c.toNat - '0'.toNat)) * 10 + (d.toNat - '0'.toNat))
    else
      none
  | _ => none

/-- Value of the first contiguous 4-digit substring, scanning left to right:
`s.match(/(\d{4})/)` followed by `parseInt`. -/
def firstFourDigits : List Char → Option Nat
  | [] => none
  | c :: rest =>
    match fourDigitsAt (c :: rest) with
    | some n => some n
    | none => firstFourDigits rest

/-- Model of `transformComplaint` (`lib/data-loader.ts`): normalizes one raw backend
record into a `PCIComplaint`.  `currentYear` stands for
`new Date().getFullYear()` and `randSuffix` for the random id suffix, both
ambient effects of the source passed here as explicit inputs. -/
def transformComplaint (table : SourceTable) (currentYear : Nat)
    (randSuffix : String) (complaint : RawComplaint) : PCIComplaint :=
  let year := (firstFourDigits complaint.ReportName.data).getD currentYear
  let complaintDirection : Direction :=
    if table = .byTable then .by_press else .against_press
  let id := table.toStr ++ "-" ++ complaint.State ++ "-" ++ toString year ++
    "-" ++ randSuffix
  { id := id
    complainant := strOr complaint.Complainant "Unknown"
    against := strOr complaint.Against "Unknown"
    complaint := strOr complaint.Complaint ""
    complaintType := strOr complaint.ComplaintType "Unknown"
    decision := strOr complaint.Decision "Pending"
    date := strOr complaint.Date ""
    year := year
    state := strOr complaint.State "Unknown"
    reportName := strOr complaint.ReportName ""
    locationsMApped := strOr complaint.Locations_Mapped (strOr complaint.State "")
    complainantNameResolved :=
      strOr complaint.c_name_resolved (strOr complaint.Complainant "")
    accusedNameResolved :=
      strOr complaint.a_name_resolved (strOr complaint.Against "")
    complainantAffiliation := strOr complaint.c_aff_resolved "Unknown"
    accusedAffiliation := strOr complaint.a_aff_resolved "Unknown"
    complaintDirection := complaintDirection
    gender := .unknown
    complaintTypeNormalized :=
      strOr complaint.ComplaintType_Normalized (strOr complaint.ComplaintType "Unknown")
    decisionParent := strOr complaint.Decision_Parent "Pending"
    decisionSpecific := strOr complaint.Decision_Specific (strOr complaint.Decision "Pending")
    complainantCategory := strOr complaint.Complainant_Category "Unknown"
    complainantOccupation := strOr complaint.Complainant_Occupation "Unknown"
    accusedCategory := strOr complaint.Accused_Category "Unknown"
    accusedOccupation := strOr complaint.Accused_Occupation "Unknown"
    level := strOr complaint.level "Unknown" }

example : firstFourDigits "AnnualReport2023".data = some 2023 := by decide
example : firstFourDigits "NoYearHere".data = none := by decide
example : firstFourDigits "ab12345cd".data = some 1234 := by decide

/-- Filter specification: the six independent filter states of `app/page.tsx`
(`selectedYears`, `selectedStates`, `selectedTypes`, `selectedDirection`,
`selectedAffiliations`, `selectedDecisions`). -/
structure FilterSpec where
  selectedYears : List Nat := []
  selectedStates : List String := []
  selectedTypes : List String := []
  selectedDirection : DirectionFilter := .all
  selectedAffiliations : List String := []
  selectedDecisions : List String := []
  deriving DecidableEq, Repr

/-- The filter predicate of `filteredData` (`app/page.tsx` lines 82-96):
the early-return chain over the six dimensions. -/
def matchesFilters (f : FilterSpec) (item : PCIComplaint) : Bool :=
  if 0 < f.selectedYears.length ∧ item.year ∉ f.selectedYears then false
  else if 0 < f.selectedStates.length ∧ item.state ∉ f.selectedStates then false
  else if 0 < f.selectedTypes.length ∧ item.complaintType ∉ f.selectedTypes then false
  else if f.selectedDirection ≠ .all ∧
      item.complaintDirection.toFilter ≠ f.selectedDirection then false
  else if 0 < f.selectedAffiliations.length ∧
      ¬(item.complainantAffiliation ∈ f.selectedAffiliations ∨
        item.accusedAffiliation ∈ f.selectedAffiliations) then false
  else if 0 < f.selectedDecisions.length ∧ item.decision ∉ f.selectedDecisions then false
  else true

/-- Model of `filteredData`: `allData.filter(item => ...)`. -/
def filterComplaints (f : FilterSpec) (allData : List PCIComplaint) :
    List PCIComplaint :=
  allData.filter (fun item => matchesFilters f item)

/-- The empty filter specification (all dimensions unconstrained). -/
def emptySpec : FilterSpec := {}

/-- Insert into a descending-sorted list, after every element the new one
does not strictly beat (so ties keep first-encountered order). -/
def insertDescBy {α : Type} (gt : α → α → Bool) (x : α) : List α → List α
  | [] => [x]
  | y :: ys => if gt x y then x :: y :: ys else y :: insertDescBy gt x ys

/-- Stable sort placing `x` before `y` whenever `gt x y`; ties and
incomparable pairs keep input order.  Models the stable
`Array.prototype.sort` with comparator `(a, b) => key(b) - key(a)`. -/
def stableSortBy {α : Type} (gt : α → α → Bool) (l : List α) : List α :=
  l.foldl (fun acc x => insertDescBy gt x acc) []

/-- Keyed accumulation into an insertion-ordered association list: update the
entry at `k` with `f` (starting from `init` for a fresh key), keeping the
position of existing keys.  Models `Map.set` / plain-object index assignment. -/
def updateAssoc {β : Type} (k : String) (init : β) (f : β → β) :
    List (String × β) → List (String × β)
  | [] => [(k, f init)]
  | (k', v) :: rest =>
    if k' = k then (k', f v) :: rest else (k', v) :: updateAssoc k init f rest

/-- Group-count: `Map<string, number>` accumulation in first-encountered key
order (`counts.set(k, (counts.get(k) || 0) + 1)`). -/
def groupCounts {α : Type} (key : α → String) (l : List α) :
    List (String × Nat) :=
  l.foldl (fun acc x => updateAssoc (key x) 0 (· + 1) acc) []

/-- Sum of the counts of an association list. -/
def sumSnd {β : Type} [Add β] [Zero β] (l : List (String × β)) : β :=
  (l.map Prod.snd).sum

/-- A `parseInt`-free one-decimal percentage formatting: models
`((upheld / total) * 100).toFixed(1)` by exact rational rounding
(round half up) of `upheld / total * 100` to tenths; `n` below is that
value in tenths of a percent.  Used only with `0 < total`. -/
def formatRate1 (upheld total : Nat) : String :=
  let n := (2000 * upheld + total) / (2 * total)
  toString (n / 10) ++ "." ++ toString (n % 10)

/-- Decimal value of a digit string. -/
def digitsToNat (l : List Char) : Nat :=
  l.foldl (fun n c => n * 10 + (c.toNat - '0'.toNat)) 0

/-- Model of `parseFloat` restricted to the strings produced by `formatRate1` and
`"0"`, returning the value in tenths (all comparisons the source makes with
`parseFloat(x.upheldRate)` are decided identically by these keys). -/
def parseTenths (s : String) : Nat :=
  match s.data.span (· != '.') with
  | (a, []) => 10 * digitsToNat a
  | (a, _ :: b) => 10 * digitsToNat a + digitsToNat b

example : formatRate1 1 3 = "33.3" := by decide
example : formatRate1 2 3 = "66.7" := by decide
example : formatRate1 1 1 = "100.0" := by decide
example : formatRate1 0 5 = "0.0" := by decide
example : parseTenths (formatRate1 1 3) = 333 := by decide

/-- Key used by `decisionCounts`: `d.decisionSpecific || "Unknown"`. -/
def decisionKey (d : PCIComplaint) : String :=
  strOr d.decisionSpecific "Unknown"

/-- The `sorted` intermediate of `decisionCounts`: group-count by specific
decision, sorted descending by count (stable). -/
def sortedDecisionCounts (data : List PCIComplaint) : List (String × Nat) :=
  stableSortBy (fun a b => b.2 < a.2) (groupCounts decisionKey data)

/-- Model of `decisionCounts` (`components/accountability-analysis.tsx`): group-count
by specific decision, sort descending (stable), keep the top `TOP_N = 10`
and roll the rest into one `"All Other Decisions"` entry; entries are
`(decision, count)` pairs. -/
def decisionCounts (data : List PCIComplaint) : List (String × Nat) :=
  if (sortedDecisionCounts data).length ≤ 10 then
    sortedDecisionCounts data
  else
    (sortedDecisionCounts data).take 10 ++
      [("All Other Decisions", sumSnd ((sortedDecisionCounts data).drop 10))]

/-- Per-state tallies accumulated by `stateData`
(`components/regional-analysis.tsx`): `(total, byPress, againstPress)`. -/
def bumpStateCounts (d : PCIComplaint) :
    Nat × Nat × Nat → Nat × Nat × Nat
  | (total, byPress, againstPress) =>
    if d.complaintDirection = .by_press then
      (total + 1, byPress + 1, againstPress)
    else
      (total + 1, byPress, againstPress + 1)

/-- One row of `stateData`. -/
structure StateRow where
  state : String
  total : Nat
  byPress : Nat
  againstPress : Nat
  deriving DecidableEq, Repr

/-- Model of `stateData` (`components/regional-analysis.tsx` lines 26-38): group by
state in first-encountered order, then stable sort descending by total. -/
def stateData (data : List PCIComplaint) : List StateRow :=
  let counts := data.foldl
    (fun acc d => updateAssoc d.state (0, 0, 0) (bumpStateCounts d) acc) []
  (stableSortBy (fun a b => b.2.1 < a.2.1) counts).map
    (fun e => { state := e.1, total := e.2.1, byPress := e.2.2.1,
                againstPress := e.2.2.2 })

/-- One row of the two-level decision matrices (`decisionByCategory`,
`decisionByOccupation`): outer key, the named sub-bucket counts, the row
total and the formatted upheld rate. -/
structure DecisionRow where
  category : String
  upheldCount : Nat
  closedCount : Nat
  otherCount : Nat
  total : Nat
  upheldRate : String
  deriving DecidableEq, Repr

/-- Inner accumulation shared by the matrix views:
`matrix[k][d.decisionParent] = (matrix[k][d.decisionParent] || 0) + 1`. -/
def decisionMatrix (outerKey : PCIComplaint → String)
    (data : List PCIComplaint) : List (String × List (String × Nat)) :=
  data.foldl
    (fun acc d =>
      updateAssoc (outerKey d) []
        (fun inner => updateAssoc d.decisionParent 0 (· + 1) inner) acc)
    []

/-- Row construction shared by the matrix views: row total is the sum of the
sub-buckets, `Other` is the remainder, and the rate is
`total > 0 ? ((upheld / total) * 100).toFixed(1) : "0"`. -/
def mkDecisionRow (entry : String × List (String × Nat)) : DecisionRow :=
  let total := sumSnd entry.2
  let upheld := ((entry.2.lookup "Upheld").getD 0)
  let closed := ((entry.2.lookup "Closed").getD 0)
  { category := entry.1
    upheldCount := upheld
    closedCount := closed
    otherCount := total - upheld - closed
    total := total
    upheldRate := if 0 < total then formatRate1 upheld total else "0" }

/-- Outer key of `decisionByCategory`: `d.accusedCategory || "Unknown"`,
replaced by `d.level || "Unknown"` when the direction is `against_press`. -/
def categoryKey (selectedDirection : DirectionFilter) (d : PCIComplaint) :
    String :=
  if selectedDirection = .against_press then strOr d.level "Unknown"
  else strOr d.accusedCategory "Unknown"

/-- Model of `decisionByCategory` (`components/accountability-analysis.tsx` lines
52-80): two-level matrix by accused category (or press level), one row per
category, sorted descending by row total. -/
def decisionByCategory (selectedDirection : DirectionFilter)
    (data : List PCIComplaint) : List DecisionRow :=
  stableSortBy (fun a b => b.total < a.total)
    ((decisionMatrix (categoryKey selectedDirection) data).map mkDecisionRow)

/-- The minimum-sample-size upheld-rate view with a caller-specified
threshold: `decisionByCategory.filter(d => d.total >= T)`, sorted descending
by `parseFloat(upheldRate)` and sliced to the top 8.  The source instantiates
`T = 20` (`upheldRateByCategory`). -/
def upheldRateByCategoryT (threshold : Nat)
    (selectedDirection : DirectionFilter) (data : List PCIComplaint) :
    List DecisionRow :=
  ((stableSortBy (fun a b => parseTenths b.upheldRate < parseTenths a.upheldRate)
    ((decisionByCategory selectedDirection data).filter
      (fun d => threshold ≤ d.total)))).take 8

/-- Model of `upheldRateByCategory` as in the source, with its hardcoded threshold 20. -/
def upheldRateByCategory (selectedDirection : DirectionFilter)
    (data : List PCIComplaint) : List DecisionRow :=
  upheldRateByCategoryT 20 selectedDirection data

/-- Model of `decisionByOccupation` (`components/accountability-analysis.tsx`, older
variant): two-level matrix by `d.accusedOccupation || "Unknown"`, sorted
descending by row total.  The 18-character display truncation of the
occupation label does not affect the fields this development reasons about,
so rows carry the full occupation as `category`. -/
def decisionByOccupation (data : List PCIComplaint) : List DecisionRow :=
  stableSortBy (fun a b => b.total < a.total)
    ((decisionMatrix (fun d => strOr d.accusedOccupation "Unknown") data).map
      mkDecisionRow)

/-- Model of `upheldRateByOccupation`: `decisionByOccupation.filter(d => d.total > 10)`,
sorted descending by rate, top 8. -/
def upheldRateByOccupation (data : List PCIComplaint) : List DecisionRow :=
  ((stableSortBy (fun a b => parseTenths b.upheldRate < parseTenths a.upheldRate)
    ((decisionByOccupation data).filter (fun d => 10 < d.total)))).take 8

/-- Model of `String.prototype.trim()`, modelled over the character list (the strings
involved are ASCII). -/
def jsTrim (s : String) : String :=
  ⟨((s.data.dropWhile (·.isWhitespace)).reverse.dropWhile (·.isWhitespace)).reverse⟩

/-- Model of `String.prototype.toLowerCase()`, modelled characterwise. -/
def jsToLower (s : String) : String :=
  ⟨s.data.map Char.toLower⟩

/-- The fixed generic-role vocabulary of `getTargetDisplayName`
(`components/targets-analysis.tsx`). -/
def genericRoles : List String :=
  ["editor", "the editor", "chief editor", "resident editor", "executive editor",
   "reporter", "correspondent", "publisher", "printer", "owner", "manager",
   "editor-in-chief", "sub-editor", "news editor", "group editor", "managing editor"]

/-- Model of `getTargetDisplayName` (`components/targets-analysis.tsx` lines 50-95):
resolves the display label for the accused party from its trimmed name
(`d.against`) and trimmed affiliation (`d.accusedAffiliation`). -/
def getTargetDisplayName (d : PCIComplaint) : String :=
  let aff := jsTrim d.accusedAffiliation
  let name := jsTrim d.against
  if aff = "" ∨ aff = "Unknown" ∨ aff = "None" then
    let lowerName := jsToLower name
    if genericRoles.contains lowerName then
      name ++ " (Unspecified Media Outlet)"
    else
      strOr name "Unknown"
  else if name = "" then
    aff
  else
    let lowerName := jsToLower name
    if genericRoles.contains lowerName then
      aff
    else if lowerName = jsToLower aff then
      aff
    else
      aff ++ " — " ++ name

/-- The summary object computed by `statistics` (`app/page.tsx` lines 138-154). -/
structure Statistics where
  total : Nat
  byPress : Nat
  againstPress : Nat
  upheld : Nat
  dismissed : Nat
  upheldRate : String
  statesCovered : Nat
  yearsSpanned : Nat
  deriving DecidableEq, Repr

/-- Model of `statistics` (`app/page.tsx` lines 138-154): single-pass (here,
pass-per-field) counts and the guarded upheld rate over the filtered set. -/
def statistics (filteredData : List PCIComplaint) : Statistics :=
  let byPress := (filteredData.filter
    (fun d => d.complaintDirection == Direction.by_press)).length
  let againstPress := (filteredData.filter
    (fun d => d.complaintDirection == Direction.against_press)).length
  let upheld := (filteredData.filter (fun d => d.decisionParent == "Upheld")).length
  let dismissed := (filteredData.filter (fun d => d.decisionParent == "Closed")).length
  { total := filteredData.length
    byPress := byPress
    againstPress := againstPress
    upheld := upheld
    dismissed := dismissed
    upheldRate :=
      if 0 < filteredData.length then formatRate1 upheld filteredData.length
      else "0"
    statesCovered := ((filteredData.map (·.state)).dedup).length
    yearsSpanned := ((filteredData.map (·.year)).dedup).length }

/-- A canonical complaint with every field at its normalization sentinel;
concrete scenarios below override the fields they constrain. -/
def baseComplaint : PCIComplaint :=
  { id := ""
    complainant := "Unknown"
    against := "Unknown"
    complaint := ""
    complaintType := "Unknown"
    decision := "Pending"
    date := ""
    year := 2020
    state := "Unknown"
    reportName := ""
    locationsMApped := ""
    complainantNameResolved := ""
    accusedNameResolved := ""
    complainantAffiliation := "Unknown"
    accusedAffiliation := "Unknown"
    complaintDirection := .by_press
    gender := .unknown
    complaintTypeNormalized := "Unknown"
    decisionParent := "Pending"
    decisionSpecific := "Pending"
    complainantCategory := "Unknown"
    complainantOccupation := "Unknown"
    accusedCategory := "Unknown"
    accusedOccupation := "Unknown"
    level := "Unknown" }

/-- Scenario record: name `"Editor"`, empty affiliation. -/
def editorNoAff : PCIComplaint :=
  { baseComplaint with
    against := "Editor"
    accusedAffiliation := "" }

example :
    getTargetDisplayName editorNoAff = "Editor (Unspecified Media Outlet)" := by
  decide

lemma insertDescBy_perm {α : Type} (gt : α → α → Bool) (x : α) :
    ∀ l : List α, (insertDescBy gt x l).Perm (x :: l) := by
  intro l
  induction l with
  | nil => simp [insertDescBy]
  | cons y ys ih =>
    by_cases h : gt x y = true
    · simp [insertDescBy, h]
    · simp only [insertDescBy, h, if_false]
      exact (ih.cons y).trans (List.Perm.swap x y ys)

lemma stableSortBy_aux_perm {α : Type} (gt : α → α → Bool) :
    ∀ (l acc : List α),
      (l.foldl (fun acc x => insertDescBy gt x acc) acc).Perm (acc ++ l) := by
  intro l
  induction l with
  | nil => intro acc; simp
  | cons x xs ih =>
    intro acc
    have h1 := ih (insertDescBy gt x acc)
    have h2 : (insertDescBy gt x acc ++ xs).Perm ((x :: acc) ++ xs) :=
      (insertDescBy_perm gt x acc).append_right xs
    have h3 : ((x :: acc) ++ xs).Perm (acc ++ (x :: xs)) :=
      (@List.perm_middle _ x acc xs).symm
    simpa using (h1.trans h2).trans h3

/-- The stable insertion sort is a permutation of its input. -/
lemma stableSortBy_perm {α : Type} (gt : α → α → Bool) (l : List α) :
    (stableSortBy gt l).Perm l := by
  simpa [stableSortBy] using stableSortBy_aux_perm gt l []

lemma mem_stableSortBy {α : Type} {gt : α → α → Bool} {l : List α} {x : α} :
    x ∈ stableSortBy gt l ↔ x ∈ l :=
  (stableSortBy_perm gt l).mem_iff

lemma sumSnd_stableSortBy (gt : String × Nat → String × Nat → Bool)
    (l : List (String × Nat)) : sumSnd (stableSortBy gt l) = sumSnd l := by
  unfold sumSnd
  exact ((stableSortBy_perm gt l).map Prod.snd).sum_eq

lemma sumSnd_append (a b : List (String × Nat)) :
    sumSnd (a ++ b) = sumSnd a + sumSnd b := by
  simp [sumSnd]

lemma sumSnd_updateAssoc_succ (k : String) :
    ∀ acc : List (String × Nat),
      sumSnd (updateAssoc k 0 (· + 1) acc) = sumSnd acc + 1 := by
  intro acc
  induction acc with
  | nil => simp [updateAssoc, sumSnd]
  | cons e rest ih =>
    obtain ⟨k', v⟩ := e
    by_cases h : k' = k
    · simp [updateAssoc, h, sumSnd]
      omega
    · simp only [updateAssoc, h, if_false]
      simp [sumSnd] at ih ⊢
      omega

lemma groupCounts_aux_sum {α : Type} (key : α → String) :
    ∀ (l : List α) (acc : List (String × Nat)),
      sumSnd (l.foldl (fun acc x => updateAssoc (key x) 0 (· + 1) acc) acc) =
        sumSnd acc + l.length := by
  intro l
  induction l with
  | nil => intro acc; simp
  | cons x xs ih =>
    intro acc
    simp only [List.foldl_cons, List.length_cons]
    rw [ih, sumSnd_updateAssoc_succ]
    omega

/-- Group-count total invariant: the counts sum to the number of records. -/
lemma groupCounts_sum {α : Type} (key : α → String) (l : List α) :
    sumSnd (groupCounts key l) = l.length := by
  simpa [groupCounts, sumSnd] using groupCounts_aux_sum key l []

/-- Characterization of the early-return filter chain: a record passes iff
every non-empty dimension is satisfied (OR within the affiliation pair). -/
lemma matchesFilters_iff (f : FilterSpec) (item : PCIComplaint) :
    matchesFilters f item = true ↔
      (f.selectedYears ≠ [] → item.year ∈ f.selectedYears) ∧
      (f.selectedStates ≠ [] → item.state ∈ f.selectedStates) ∧
      (f.selectedTypes ≠ [] → item.complaintType ∈ f.selectedTypes) ∧
      (f.selectedDirection ≠ .all →
        item.complaintDirection.toFilter = f.selectedDirection) ∧
      (f.selectedAffiliations ≠ [] →
        item.complainantAffiliation ∈ f.selectedAffiliations ∨
          item.accusedAffiliation ∈ f.selectedAffiliations) ∧
      (f.selectedDecisions ≠ [] → item.decision ∈ f.selectedDecisions) := by
  unfold matchesFilters
  split_ifs with h1 h2 h3 h4 h5 h6
  · simp only [Bool.false_eq_true, false_iff]
    intro hc
    exact h1.2 (hc.1 (List.length_pos.mp h1.1))
  · simp only [Bool.false_eq_true, false_iff]
    intro hc
    exact h2.2 (hc.2.1 (List.length_pos.mp h2.1))
  · simp only [Bool.false_eq_true, false_iff]
    intro hc
    exact h3.2 (hc.2.2.1 (List.length_pos.mp h3.1))
  · simp only [Bool.false_eq_true, false_iff]
    intro hc
    exact h4.2 (hc.2.2.2.1 h4.1)
  · simp only [Bool.false_eq_true, false_iff]
    intro hc
    exact h5.2 (hc.2.2.2.2.1 (List.length_pos.mp h5.1))
  · simp only [Bool.false_eq_true, false_iff]
    intro hc
    exact h6.2 (hc.2.2.2.2.2 (List.length_pos.mp h6.1))
  · simp only [true_iff]
    push_neg at h1 h2 h3 h4 h5 h6
    refine ⟨?_, ?_, ?_, h4, ?_, ?_⟩
    · intro hne; exact h1 (List.length_pos.mpr hne)
    · intro hne; exact h2 (List.length_pos.mpr hne)
    · intro hne; exact h3 (List.length_pos.mpr hne)
    · intro hne; exact h5 (List.length_pos.mpr hne)
    · intro hne; exact h6 (List.length_pos.mpr hne)

/-- Spec refinement: `spec'` strengthens `spec` when, dimensionwise, either `spec` leaves the
dimension unconstrained, or `spec'` constrains it to a (non-empty) subset of
what `spec` allows. -/
def strongerSpec (spec' spec : FilterSpec) : Prop :=
  (spec.selectedYears = [] ∨
    (spec'.selectedYears ≠ [] ∧ spec'.selectedYears ⊆ spec.selectedYears)) ∧
  (spec.selectedStates = [] ∨
    (spec'.selectedStates ≠ [] ∧ spec'.selectedStates ⊆ spec.selectedStates)) ∧
  (spec.selectedTypes = [] ∨
    (spec'.selectedTypes ≠ [] ∧ spec'.selectedTypes ⊆ spec.selectedTypes)) ∧
  (spec.selectedDirection = .all ∨
    spec'.selectedDirection = spec.selectedDirection) ∧
  (spec.selectedAffiliations = [] ∨
    (spec'.selectedAffiliations ≠ [] ∧
      spec'.selectedAffiliations ⊆ spec.selectedAffiliations)) ∧
  (spec.selectedDecisions = [] ∨
    (spec'.selectedDecisions ≠ [] ∧ spec'.selectedDecisions ⊆ spec.selectedDecisions))

/-- A record passing the stronger spec passes the weaker one. -/
lemma matchesFilters_mono {spec' spec : FilterSpec}
    (h : strongerSpec spec' spec) (item : PCIComplaint)
    (hm : matchesFilters spec' item = true) :
    matchesFilters spec item = true := by
  rw [matchesFilters_iff] at hm ⊢
  obtain ⟨hy, hs, ht, hd, ha, hc⟩ := h
  obtain ⟨my, ms, mt, md, ma, mc⟩ := hm
  refine ⟨?_, ?_, ?_, ?_, ?_, ?_⟩
  · rcases hy with h0 | ⟨hne, hsub⟩
    · intro hne'; exact absurd h0 hne'
    · intro _; exact hsub (my hne)
  · rcases hs with h0 | ⟨hne, hsub⟩
    · intro hne'; exact absurd h0 hne'
    · intro _; exact hsub (ms hne)
  · rcases ht with h0 | ⟨hne, hsub⟩
    · intro hne'; exact absurd h0 hne'
    · intro _; exact hsub (mt hne)
  · rcases hd with h0 | heq
    · intro hne'; exact absurd h0 hne'
    · intro hne'
      have : spec'.selectedDirection ≠ .all := by rw [heq]; exact hne'
      rw [md this, heq]
  · rcases ha with h0 | ⟨hne, hsub⟩
    · intro hne'; exact absurd h0 hne'
    · intro _
      rcases ma hne with hl | hr
      · exact Or.inl (hsub hl)
      · exact Or.inr (hsub hr)
  · rcases hc with h0 | ⟨hne, hsub⟩
    · intro hne'; exact absurd h0 hne'
    · intro _; exact hsub (mc hne)

/-- The empty spec's predicate accepts every record. -/
lemma matchesFilters_emptySpec (item : PCIComplaint) :
    matchesFilters emptySpec item = true := by
  rw [matchesFilters_iff]
  refine ⟨?_, ?_, ?_, ?_, ?_, ?_⟩ <;> intro h <;> simp [emptySpec] at h

/-- If no position of `l` starts a 4-digit run, the scanner finds nothing. -/
lemma firstFourDigits_eq_none (l : List Char)
    (h : ∀ i, fourDigitsAt (l.drop i) = none) : firstFourDigits l = none := by
  induction l with
  | nil => rfl
  | cons c rest ih =>
    have h0 : fourDigitsAt (c :: rest) = none := by simpa using h 0
    have hrest : ∀ i, fourDigitsAt (rest.drop i) = none := by
      intro i
      simpa [List.drop_succ_cons] using h (i + 1)
    simp only [firstFourDigits, h0]
    exact ih hrest

/-- If position `i` starts the first 4-digit run of `l`, the scanner returns
its parsed value. -/
lemma firstFourDigits_eq_some (l : List Char) :
    ∀ (i n : Nat), (∀ j, j < i → fourDigitsAt (l.drop j) = none) →
      fourDigitsAt (l.drop i) = some n → firstFourDigits l = some n := by
  induction l with
  | nil =>
    intro i n _ h
    simp [fourDigitsAt, List.drop_nil] at h
  | cons c rest ih =>
    intro i n hmin h
    cases i with
    | zero =>
      simp only [List.drop_zero] at h
      simp [firstFourDigits, h]
    | succ i' =>
      have h0 : fourDigitsAt (c :: rest) = none := by
        simpa using hmin 0 (Nat.succ_pos i')
      simp only [firstFourDigits, h0]
      refine ih i' n ?_ ?_
      · intro j hj
        simpa [List.drop_succ_cons] using hmin (j + 1) (by omega)
      · simpa [List.drop_succ_cons] using h

/-- A raw record with every field absent (modelled as `""`). -/
def emptyRaw : RawComplaint := {}

/-- Scenario records for the end-to-end scenario of the spec (§8). -/
def scenarioR1 : PCIComplaint :=
  { baseComplaint with
    year := 2020
    state := "Delhi"
    complaintDirection := .by_press }

def scenarioR2 : PCIComplaint :=
  { baseComplaint with
    year := 2020
    state := "Delhi"
    complaintDirection := .against_press }

def scenarioR3 : PCIComplaint :=
  { baseComplaint with
    year := 2021
    state := "Kerala"
    complaintDirection := .by_press }

def scenarioData : List PCIComplaint := [scenarioR1, scenarioR2, scenarioR3]

/-- Direction-only filter spec. -/
def byPressSpec : FilterSpec := { selectedDirection := .by_press }

/-- State-only filter spec. -/
def delhiSpec : FilterSpec := { selectedStates := ["Delhi"] }

/-- C1.  Filter semantics: a record of the data set is kept by
`filterComplaints` iff it satisfies every non-empty constraint — AND across
dimensions, OR (membership) within a dimension's set, with the affiliation
dimension passing when either party's affiliation is selected, and an empty
set / direction `all` imposing no constraint. -/
theorem filter_keeps_iff_all_nonempty_constraints_hold
    (f : FilterSpec) (data : List PCIComplaint) (item : PCIComplaint)
    (hmem : item ∈ data) :
    item ∈ filterComplaints f data ↔
      (f.selectedYears ≠ [] → item.year ∈ f.selectedYears) ∧
      (f.selectedStates ≠ [] → item.state ∈ f.selectedStates) ∧
      (f.selectedTypes ≠ [] → item.complaintType ∈ f.selectedTypes) ∧
      (f.selectedDirection ≠ .all →
        item.complaintDirection.toFilter = f.selectedDirection) ∧
      (f.selectedAffiliations ≠ [] →
        item.complainantAffiliation ∈ f.selectedAffiliations ∨
          item.accusedAffiliation ∈ f.selectedAffiliations) ∧
      (f.selectedDecisions ≠ [] → item.decision ∈ f.selectedDecisions) := by
  rw [filterComplaints, List.mem_filter]
  simp only [hmem, true_and]
  exact matchesFilters_iff f item

/-- Witness for C1: the year-2020 Delhi record passes the by-press direction
filter over the scenario data, via the characterization. -/
theorem filter_keeps_iff_witness :
    scenarioR1 ∈ scenarioData ∧
      (scenarioR1 ∈ filterComplaints byPressSpec scenarioData ↔
        (byPressSpec.selectedYears ≠ [] →
          scenarioR1.year ∈ byPressSpec.selectedYears) ∧
        (byPressSpec.selectedStates ≠ [] →
          scenarioR1.state ∈ byPressSpec.selectedStates) ∧
        (byPressSpec.selectedTypes ≠ [] →
          scenarioR1.complaintType ∈ byPressSpec.selectedTypes) ∧
        (byPressSpec.selectedDirection ≠ .all →
          scenarioR1.complaintDirection.toFilter = byPressSpec.selectedDirection) ∧
        (byPressSpec.selectedAffiliations ≠ [] →
          scenarioR1.complainantAffiliation ∈ byPressSpec.selectedAffiliations ∨
            scenarioR1.accusedAffiliation ∈ byPressSpec.selectedAffiliations) ∧
        (byPressSpec.selectedDecisions ≠ [] →
          scenarioR1.decision ∈ byPressSpec.selectedDecisions)) :=
  ⟨by decide,
   filter_keeps_iff_all_nonempty_constraints_hold byPressSpec scenarioData
     scenarioR1 (by decide)⟩

/-- C10.  For every filter specification the filtered set is an
order-preserving, duplication-free subsequence of the input list
(`List.Sublist`), so downstream aggregations see records in held order. -/
theorem filtered_is_sublist (f : FilterSpec) (data : List PCIComplaint) :
    (filterComplaints f data).Sublist data :=
  List.filter_sublist data

/-- C9.  Concrete end-to-end scenario: direction filter keeps exactly the two
by-press records, the subsequent Delhi state filter keeps one, and the
state group-count yields `[("Delhi",1), ("Kerala",1)]` in
descending-count-then-first-seen order. -/
theorem end_to_end_scenario :
    filterComplaints byPressSpec scenarioData = [scenarioR1, scenarioR3] ∧
    filterComplaints delhiSpec (filterComplaints byPressSpec scenarioData) =
      [scenarioR1] ∧
    (stateData (filterComplaints byPressSpec scenarioData)).map
        (fun row => (row.state, row.total)) =
      [("Delhi", 1), ("Kerala", 1)] := by
  decide

/-- Scenario record: name `"Editor"`, affiliation `"Dainik Jagran"`. -/
def editorWithAff : PCIComplaint :=
  { baseComplaint with
    against := "Editor"
    accusedAffiliation := "Dainik Jagran" }

/-- Scenario record: name and affiliation both `"Dainik Jagran"`. -/
def sameNameAff : PCIComplaint :=
  { baseComplaint with
    against := "Dainik Jagran"
    accusedAffiliation := "Dainik Jagran" }

/-- Scenario record: name `"Ram Singh"`, affiliation `"Times Group"`. -/
def ramSingh : PCIComplaint :=
  { baseComplaint with
    against := "Ram Singh"
    accusedAffiliation := "Times Group" }

/-- C4.  Label resolution: `getTargetDisplayName` reads only the
(name, affiliation) pair — two records agreeing on `against` and
`accusedAffiliation` get the same label (purity/determinism) — and the four
scenario cases of the spec resolve as stated.  Totality (every branch
returns a string) is by construction of the Lean function. -/
theorem label_resolution_deterministic_and_scenarios :
    (∀ d d' : PCIComplaint, d.against = d'.against →
      d.accusedAffiliation = d'.accusedAffiliation →
      getTargetDisplayName d = getTargetDisplayName d') ∧
    getTargetDisplayName editorNoAff = "Editor (Unspecified Media Outlet)" ∧
    getTargetDisplayName editorWithAff = "Dainik Jagran" ∧
    getTargetDisplayName sameNameAff = "Dainik Jagran" ∧
    getTargetDisplayName ramSingh = "Times Group — Ram Singh" := by
  refine ⟨?_, by decide, by decide, by decide, by decide⟩
  intro d d' hn ha
  simp only [getTargetDisplayName, hn, ha]

/-- Witness for C4: the determinism conjunct applied at two records sharing
the (name, affiliation) pair but differing elsewhere. -/
theorem label_resolution_witness :
    getTargetDisplayName ramSingh =
      getTargetDisplayName { ramSingh with state := "Delhi" } :=
  label_resolution_deterministic_and_scenarios.1 ramSingh
    { ramSingh with state := "Delhi" } rfl rfl

lemma strOr_ne_empty (a : String) {b : String} (hb : b ≠ "") :
    strOr a b ≠ "" := by
  unfold strOr
  split_ifs with h
  · exact hb
  · exact h

/-- C2 counterexample: on the all-absent raw record the normalizer returns a
canonical complaint whose `complaint` field (and likewise `date`,
`reportName`, `locationsMApped` and the resolved-name fields) is the empty
string, refuting "no string field is empty-string"; and a report identifier
whose first 4-digit run has leading zeros (`"Report0007"`) derives the year
7, refuting "`year` is always a 4-digit integer". -/
theorem normalizer_empty_field_counterexample :
    (transformComplaint .byTable 2025 "x" emptyRaw).complaint = "" ∧
    (transformComplaint .byTable 2025 "x" emptyRaw).date = "" ∧
    (transformComplaint .byTable 2025 "x" emptyRaw).reportName = "" ∧
    (transformComplaint .byTable 2025 "x" emptyRaw).locationsMApped = "" ∧
    (transformComplaint .byTable 2025 "x" emptyRaw).complainantNameResolved = "" ∧
    (transformComplaint .byTable 2025 "x"
      { emptyRaw with ReportName := "Report0007" }).year = 7 := by
  decide

/-- C2 (amended).  Normalizer totality: on every raw record the normalizer
returns a canonical complaint (it is a total function, so it never throws)
in which every sentinel-backed field is non-empty — the free-text fields
`complaint`, `date`, `reportName`, `locationsMApped`,
`complainantNameResolved` and `accusedNameResolved` instead fall back to the
empty string, and `year` is the first 4-digit match or the current calendar
year (which need not be 4 digits). -/
theorem normalizer_sentinel_fields_nonempty (table : SourceTable)
    (cy : Nat) (suf : String) (raw : RawComplaint) :
    (transformComplaint table cy suf raw).complainant ≠ "" ∧
    (transformComplaint table cy suf raw).against ≠ "" ∧
    (transformComplaint table cy suf raw).complaintType ≠ "" ∧
    (transformComplaint table cy suf raw).decision ≠ "" ∧
    (transformComplaint table cy suf raw).state ≠ "" ∧
    (transformComplaint table cy suf raw).complainantAffiliation ≠ "" ∧
    (transformComplaint table cy suf raw).accusedAffiliation ≠ "" ∧
    (transformComplaint table cy suf raw).complaintTypeNormalized ≠ "" ∧
    (transformComplaint table cy suf raw).decisionParent ≠ "" ∧
    (transformComplaint table cy suf raw).decisionSpecific ≠ "" ∧
    (transformComplaint table cy suf raw).complainantCategory ≠ "" ∧
    (transformComplaint table cy suf raw).complainantOccupation ≠ "" ∧
    (transformComplaint table cy suf raw).accusedCategory ≠ "" ∧
    (transformComplaint table cy suf raw).accusedOccupation ≠ "" ∧
    (transformComplaint table cy suf raw).level ≠ "" := by
  simp only [transformComplaint]
  refine ⟨?_, ?_, ?_, ?_, ?_, ?_, ?_, ?_, ?_, ?_, ?_, ?_, ?_, ?_, ?_⟩ <;>
    first
      | exact strOr_ne_empty _ (by decide)
      | exact strOr_ne_empty _ (strOr_ne_empty _ (by decide))

/-- Witness for C2 (amended): the non-emptiness conjunction instantiated on
the all-absent raw record. -/
theorem normalizer_sentinel_fields_nonempty_witness :
    (transformComplaint .byTable 2025 "x" emptyRaw).complainant ≠ "" :=
  (normalizer_sentinel_fields_nonempty .byTable 2025 "x" emptyRaw).1

/-- C5.  Filter monotonicity: strengthening the specification — constraining
a previously unconstrained dimension, or shrinking a constrained dimension's
set (to a non-empty subset; shrinking to the empty set means removing the
constraint under the empty-set-is-unconstrained convention) — filters to a
subset; and the empty specification is the identity (full set, order
preserved). -/
theorem filter_monotone_and_identity :
    (∀ (data : List PCIComplaint) (spec spec' : FilterSpec),
      strongerSpec spec' spec →
        filterComplaints spec' data ⊆ filterComplaints spec data) ∧
    (∀ data : List PCIComplaint, filterComplaints emptySpec data = data) := by
  constructor
  · intro data spec spec' h x hx
    rw [filterComplaints, List.mem_filter] at hx ⊢
    exact ⟨hx.1, matchesFilters_mono h x hx.2⟩
  · intro data
    rw [filterComplaints, List.filter_eq_self]
    intro a _
    exact matchesFilters_emptySpec a

/-- Witness for C5: the by-press direction spec strengthens the empty spec,
its filtered scenario set is a subset of the identity-filtered one, and the
empty spec returns the scenario data unchanged. -/
theorem filter_monotone_witness :
    strongerSpec byPressSpec emptySpec ∧
    filterComplaints byPressSpec scenarioData ⊆
      filterComplaints emptySpec scenarioData ∧
    filterComplaints emptySpec scenarioData = scenarioData := by
  have hs : strongerSpec byPressSpec emptySpec :=
    ⟨Or.inl rfl, Or.inl rfl, Or.inl rfl, Or.inl rfl, Or.inl rfl, Or.inl rfl⟩
  exact ⟨hs, filter_monotone_and_identity.1 scenarioData emptySpec byPressSpec hs,
    filter_monotone_and_identity.2 scenarioData⟩

lemma formatRate1_ne_nan (u t : Nat) : formatRate1 u t ≠ "NaN" := by
  unfold formatRate1
  intro h
  have hd : '.' ∈ (toString ((2000 * u + t) / (2 * t) / 10) ++ "." ++
      toString ((2000 * u + t) / (2 * t) % 10)).data := by
    simp [String.data_append]
  rw [h] at hd
  exact absurd hd (by decide)

/-- C6.  Statistics consistency: `total` equals the filtered set's length;
the upheld rate is the string `"0"` when the set is empty (guarded division,
no `"NaN"`), and otherwise the one-decimal formatting of
`upheld / total * 100` where `upheld` counts records with
`decisionParent = "Upheld"`. -/
theorem statistics_consistency (l : List PCIComplaint) :
    (statistics l).total = l.length ∧
    (l.length = 0 → (statistics l).upheldRate = "0") ∧
    (0 < l.length → (statistics l).upheldRate =
      formatRate1 ((l.filter (fun d => d.decisionParent == "Upheld")).length)
        l.length) ∧
    (statistics l).upheldRate ≠ "NaN" := by
  refine ⟨rfl, ?_, ?_, ?_⟩
  · intro h0
    simp [statistics, h0]
  · intro hpos
    simp [statistics, hpos]
  · by_cases hpos : 0 < l.length
    · simp only [statistics, if_pos hpos]
      exact formatRate1_ne_nan _ _
    · simp only [statistics, if_neg hpos]
      decide

/-- Witness for C6: the statistics of the empty list and of the scenario
data, via the theorem. -/
theorem statistics_consistency_witness :
    (statistics ([] : List PCIComplaint)).upheldRate = "0" ∧
    (statistics scenarioData).upheldRate =
      formatRate1
        ((scenarioData.filter (fun d => d.decisionParent == "Upheld")).length)
        scenarioData.length :=
  ⟨(statistics_consistency []).2.1 rfl,
   (statistics_consistency scenarioData).2.2.1 (by decide)⟩

/-- Construction helper for distinct-decision witness data. -/
def mkDecision (s : String) : PCIComplaint :=
  { baseComplaint with decisionSpecific := s }

/-- Witness data with 11 distinct decision groups (12 records). -/
def manyDecisionsData : List PCIComplaint :=
  [mkDecision "D01", mkDecision "D02", mkDecision "D03", mkDecision "D04",
   mkDecision "D05", mkDecision "D06", mkDecision "D07", mkDecision "D08",
   mkDecision "D09", mkDecision "D10", mkDecision "D11", mkDecision "D01"]

/-- C3.  Top-K overflow conservation for `decisionCounts` (K = 10): with more
than 10 distinct groups, the output is the top 10 plus one synthetic
`"All Other Decisions"` entry and its counts sum to the number of input
records; with at most 10 distinct groups no synthetic entry is emitted — the
output is exactly the full sorted group-count list — and the counts still
sum to the number of records. -/
theorem topk_overflow_conservation (data : List PCIComplaint) :
    (10 < (groupCounts decisionKey data).length →
      decisionCounts data =
        (sortedDecisionCounts data).take 10 ++
          [("All Other Decisions", sumSnd ((sortedDecisionCounts data).drop 10))] ∧
      sumSnd (decisionCounts data) = data.length) ∧
    ((groupCounts decisionKey data).length ≤ 10 →
      decisionCounts data = sortedDecisionCounts data ∧
      sumSnd (decisionCounts data) = data.length) := by
  have hlen : (sortedDecisionCounts data).length =
      (groupCounts decisionKey data).length :=
    (stableSortBy_perm _ _).length_eq
  have hsum : sumSnd (sortedDecisionCounts data) = data.length := by
    rw [sortedDecisionCounts, sumSnd_stableSortBy, groupCounts_sum]
  constructor
  · intro hgt
    have hnot : ¬ (sortedDecisionCounts data).length ≤ 10 := by omega
    have hdef : decisionCounts data =
        (sortedDecisionCounts data).take 10 ++
          [("All Other Decisions",
            sumSnd ((sortedDecisionCounts data).drop 10))] := by
      rw [decisionCounts, if_neg hnot]
    refine ⟨hdef, ?_⟩
    rw [hdef, sumSnd_append]
    have h1 : sumSnd [("All Other Decisions",
        sumSnd ((sortedDecisionCounts data).drop 10))] =
        sumSnd ((sortedDecisionCounts data).drop 10) := by
      simp [sumSnd]
    rw [h1, ← sumSnd_append, List.take_append_drop]
    exact hsum
  · intro hle
    have hle' : (sortedDecisionCounts data).length ≤ 10 := by omega
    have hdef : decisionCounts data = sortedDecisionCounts data := by
      rw [decisionCounts, if_pos hle']
    exact ⟨hdef, by rw [hdef]; exact hsum⟩

/-- Witness for C3: the overflow branch on 12 records spanning 11 groups, and
the no-overflow branch on the 1-group scenario data. -/
theorem topk_overflow_conservation_witness :
    (10 < (groupCounts decisionKey manyDecisionsData).length ∧
      sumSnd (decisionCounts manyDecisionsData) = manyDecisionsData.length) ∧
    ((groupCounts decisionKey scenarioData).length ≤ 10 ∧
      decisionCounts scenarioData = sortedDecisionCounts scenarioData) :=
  ⟨⟨by decide,
    ((topk_overflow_conservation manyDecisionsData).1 (by decide)).2⟩,
   ⟨by decide,
    ((topk_overflow_conservation scenarioData).2 (by decide)).1⟩⟩

/-- Witness record for the category matrix (one upheld complaint against one
category). -/
def catRecord : PCIComplaint :=
  { baseComplaint with
    accusedCategory := "Politician"
    decisionParent := "Upheld" }

/-- Witness record for the occupation matrix. -/
def occRecord : PCIComplaint :=
  { baseComplaint with
    accusedOccupation := "Journalist"
    decisionParent := "Upheld" }

/-- The matrix row produced by `catRecord` alone. -/
def catRow : DecisionRow :=
  { category := "Politician", upheldCount := 1, closedCount := 0,
    otherCount := 0, total := 1, upheldRate := "100.0" }

/-- The matrix row produced by `occRecord` alone. -/
def occRow : DecisionRow :=
  { category := "Journalist", upheldCount := 1, closedCount := 0,
    otherCount := 0, total := 1, upheldRate := "100.0" }

/-- C7.  Minimum-sample-size exclusion: a matrix row with row total below the
caller-specified threshold `T` never appears in the thresholded upheld-rate
output (`upheldRateByCategoryT`, instantiated at `T = 20` by the source's
`upheldRateByCategory`), though it does appear in the unfiltered matrix;
likewise for `upheldRateByOccupation`, whose strict `total > 10` filter
excludes every row with total below 11. -/
theorem min_sample_size_exclusion :
    (∀ (dir : DirectionFilter) (data : List PCIComplaint) (T : Nat)
        (row : DecisionRow),
      row ∈ decisionByCategory dir data → row.total < T →
        row ∉ upheldRateByCategoryT T dir data) ∧
    (∀ (data : List PCIComplaint) (row : DecisionRow),
      row ∈ decisionByOccupation data → row.total < 11 →
        row ∉ upheldRateByOccupation data) := by
  constructor
  · intro dir data T row _ hlt hmem
    have h1 : row ∈ stableSortBy
        (fun a b => parseTenths b.upheldRate < parseTenths a.upheldRate)
        ((decisionByCategory dir data).filter (fun d => T ≤ d.total)) :=
      List.take_subset 8 _ hmem
    rw [mem_stableSortBy] at h1
    have h2 := (List.mem_filter.mp h1).2
    simp only [decide_eq_true_eq] at h2
    omega
  · intro data row _ hlt hmem
    have h1 : row ∈ stableSortBy
        (fun a b => parseTenths b.upheldRate < parseTenths a.upheldRate)
        ((decisionByOccupation data).filter (fun d => 10 < d.total)) :=
      List.take_subset 8 _ hmem
    rw [mem_stableSortBy] at h1
    have h2 := (List.mem_filter.mp h1).2
    simp only [decide_eq_true_eq] at h2
    omega

/-- Witness for C7: a singleton category (resp. occupation) row of total 1 is
in the matrix but excluded from the thresholded rate views. -/
theorem min_sample_size_exclusion_witness :
    (catRow ∈ decisionByCategory .all [catRecord] ∧ catRow.total < 2 ∧
      catRow ∉ upheldRateByCategoryT 2 .all [catRecord]) ∧
    (occRow ∈ decisionByOccupation [occRecord] ∧ occRow.total < 11 ∧
      occRow ∉ upheldRateByOccupation [occRecord]) :=
  ⟨⟨by decide, by decide,
    min_sample_size_exclusion.1 .all [catRecord] 2 catRow (by decide) (by decide)⟩,
   ⟨by decide, by decide,
    min_sample_size_exclusion.2 [occRecord] occRow (by decide) (by decide)⟩⟩

/-- Raw record whose report identifier embeds a year. -/
def rawWithYear : RawComplaint := { ReportName := "AnnualReport2023" }

/-- C8.  Year extraction: if any position of the report identifier starts a
contiguous 4-digit run, the derived year is the parsed value of the first
(leftmost) such run; if no position does — including the absent identifier —
the derived year is the current calendar year. -/
theorem year_extraction_first_match (table : SourceTable) (cy : Nat)
    (suf : String) (raw : RawComplaint) :
    ((∀ i, fourDigitsAt (raw.ReportName.data.drop i) = none) →
      (transformComplaint table cy suf raw).year = cy) ∧
    (∀ i n, (∀ j, j < i → fourDigitsAt (raw.ReportName.data.drop j) = none) →
      fourDigitsAt (raw.ReportName.data.drop i) = some n →
      (transformComplaint table cy suf raw).year = n) := by
  constructor
  · intro h
    simp only [transformComplaint]
    rw [firstFourDigits_eq_none raw.ReportName.data h]
    rfl
  · intro i n hmin h
    simp only [transformComplaint]
    rw [firstFourDigits_eq_some raw.ReportName.data i n hmin h]
    rfl

/-- Witness for C8: `"AnnualReport2023"` (first 4-digit run at index 12)
derives year 2023, and the all-absent record derives the ambient year. -/
theorem year_extraction_witness :
    (transformComplaint .byTable 2025 "x" rawWithYear).year = 2023 ∧
    (transformComplaint .byTable 2025 "x" emptyRaw).year = 2025 :=
  ⟨(year_extraction_first_match .byTable 2025 "x" rawWithYear).2 12 2023
      (by decide) (by decide),
   (year_extraction_first_match .byTable 2025 "x" emptyRaw).1
      (fun i => by rw [show emptyRaw.ReportName.data = [] from rfl,
        List.drop_nil]; rfl)⟩
